import Mathlib

/-!
Shallow embedding of the core of the `rgb` terminal multiplexer
(`src/terminal/mod.rs`, `src/workspace/mod.rs`, `src/layout/mod.rs`)
and proofs about the claims of its specification.

Conventions:
- Rust `u16`/`usize` values are modelled as `Nat`; `saturating_sub`
  coincides with truncated `Nat` subtraction.
- `display_buffer` and `display_colors` are created, resized and mutated
  in lockstep in the source and always have identical shape, so the
  embedding merges them into a single matrix of `Cell`s.
- Rust operations that can panic (index out of bounds, remainder by zero)
  are modelled in `Option`, with `none` for the panic.
-/

namespace RGB

/-- The `ratatui` colours used by `src/terminal/mod.rs` (`Color::Reset` plus
the 16 named colours of the SGR tables). -/
inductive Color where
  | reset
  | black
  | red
  | green
  | yellow
  | blue
  | magenta
  | cyan
  | gray
  | darkGray
  | lightRed
  | lightGreen
  | lightYellow
  | lightBlue
  | lightMagenta
  | lightCyan
  | white
  deriving DecidableEq

/-- One grid cell: the character from `display_buffer` and the
(foreground, background) pair from `display_colors`. -/
structure Cell where
  ch : Char
  fg : Color
  bg : Color
  deriving DecidableEq

/-- An erased cell: space with reset colours, as produced by construction
and by every erase path in the source. -/
def blankCell : Cell := { ch := ' ', fg := Color.reset, bg := Color.reset }

/-- The emulator's grid state: `size = (cols, rows)`, the cell matrix,
`cursorPos = (col, row)` and the current pen. -/
structure Grid where
  size : Nat × Nat
  cells : List (List Cell)
  cursorPos : Nat × Nat
  currentFg : Color
  currentBg : Color
  deriving DecidableEq

/-- Fresh grid as built by `TerminalEmulator::new`: `rows` lines of
`cols` spaces with reset colours, cursor at the origin. -/
def initGrid (cols rows : Nat) : Grid :=
  { size := (cols, rows)
    cells := List.replicate rows (List.replicate cols blankCell)
    cursorPos := (0, 0)
    currentFg := Color.reset
    currentBg := Color.reset }

/-- Cell lookup, `none` when the coordinates fall outside the matrix. -/
def cellAt (g : Grid) (y x : Nat) : Option Cell :=
  (g.cells[y]?).bind (fun row => row[x]?)

/-- Replace the elements at indices `≥ n` by `c`
(the Rust loop `for col in n..row.len() { row[col] = c }`). -/
def setFrom (n : Nat) (c : Cell) : List Cell → List Cell
  | [] => []
  | a :: t =>
    match n with
    | 0 => c :: setFrom 0 c t
    | m + 1 => a :: setFrom m c t

/-- Replace the elements at indices `< n` by `c`, clipped to the length
(the Rust loop `for col in 0..n { if col < row.len() { row[col] = c } }`). -/
def setUpto (n : Nat) (c : Cell) : List Cell → List Cell
  | [] => []
  | a :: t =>
    match n with
    | 0 => a :: t
    | m + 1 => c :: setUpto m c t

/-- Erase a whole row. -/
def blankRow (row : List Cell) : List Cell := row.map (fun _ => blankCell)

/-- `Perform::print` (`src/terminal/mod.rs:421-443`): write the character at
the cursor with the current pen when the cursor is inside the buffer,
advance and wrap; out-of-bounds cursors are a no-op. -/
def printChar (g : Grid) (c : Char) : Grid :=
  let x := g.cursorPos.1
  let y := g.cursorPos.2
  match g.cells[y]? with
  | none => g
  | some row =>
    if x < row.length then
      let cells := g.cells.set y (row.set x { ch := c, fg := g.currentFg, bg := g.currentBg })
      if x + 1 ≥ g.size.1 then
        { g with cells := cells, cursorPos := (0, min (y + 1) (g.size.2 - 1)) }
      else
        { g with cells := cells, cursorPos := (x + 1, y) }
    else g

/-- `Perform::execute` (`src/terminal/mod.rs:445-468`): LF, CR, HT and BS;
every other C0 byte is ignored. -/
def execute (g : Grid) (b : Nat) : Grid :=
  if b = 10 then
    { g with cursorPos := (0, min (g.cursorPos.2 + 1) (g.size.2 - 1)) }
  else if b = 13 then
    { g with cursorPos := (0, g.cursorPos.2) }
  else if b = 9 then
    let nx := ((g.cursorPos.1 / 8) + 1) * 8
    { g with cursorPos := (if nx ≥ g.size.1 then g.size.1 - 1 else nx, g.cursorPos.2) }
  else if b = 8 then
    if g.cursorPos.1 > 0 then { g with cursorPos := (g.cursorPos.1 - 1, g.cursorPos.2) } else g
  else g

/-- `ED` – `CSI J` (`src/terminal/mod.rs:517-565`).  Mode 1 computes
`self.display_buffer[row].len()` for every `row` in `0..=cursor_row`
before the in-loop bounds guard, so a cursor row strictly beyond the
buffer's last index + 1 makes the Rust code index out of bounds: that
panic is `none` here. -/
def csiJ (g : Grid) (mode : Nat) : Option Grid :=
  let x := g.cursorPos.1
  let y := g.cursorPos.2
  if mode = 0 then
    some { g with cells := g.cells.mapIdx (fun r row =>
      if r < y then row else if r = y then setFrom x blankCell row else blankRow row) }
  else if mode = 1 then
    if y > g.cells.length then none
    else
      some { g with cells := g.cells.mapIdx (fun r row =>
        if r < y then blankRow row else if r = y then setUpto (x + 1) blankCell row else row) }
  else if mode = 2 then
    some { g with cells := g.cells.map blankRow, cursorPos := (0, 0) }
  else some g

/-- `EL` – `CSI K` (`src/terminal/mod.rs:566-589`): only modes 0 and 2 are
implemented; any other mode (including 1) falls into `_ => {}`. -/
def csiK (g : Grid) (mode : Nat) : Grid :=
  let x := g.cursorPos.1
  let y := g.cursorPos.2
  match g.cells[y]? with
  | none => g
  | some row =>
    if mode = 0 then { g with cells := g.cells.set y (setFrom x blankCell row) }
    else if mode = 2 then { g with cells := g.cells.set y (blankRow row) }
    else g

/-- One SGR code (`src/terminal/mod.rs:599-646`). -/
def sgrApply (g : Grid) (code : Nat) : Grid :=
  if code = 0 then { g with currentFg := Color.reset, currentBg := Color.reset }
  else if code = 30 then { g with currentFg := Color.black }
  else if code = 31 then { g with currentFg := Color.red }
  else if code = 32 then { g with currentFg := Color.green }
  else if code = 33 then { g with currentFg := Color.yellow }
  else if code = 34 then { g with currentFg := Color.blue }
  else if code = 35 then { g with currentFg := Color.magenta }
  else if code = 36 then { g with currentFg := Color.cyan }
  else if code = 37 then { g with currentFg := Color.gray }
  else if code = 90 then { g with currentFg := Color.darkGray }
  else if code = 91 then { g with currentFg := Color.lightRed }
  else if code = 92 then { g with currentFg := Color.lightGreen }
  else if code = 93 then { g with currentFg := Color.lightYellow }
  else if code = 94 then { g with currentFg := Color.lightBlue }
  else if code = 95 then { g with currentFg := Color.lightMagenta }
  else if code = 96 then { g with currentFg := Color.lightCyan }
  else if code = 97 then { g with currentFg := Color.white }
  else if code = 39 then { g with currentFg := Color.reset }
  else if code = 40 then { g with currentBg := Color.black }
  else if code = 41 then { g with currentBg := Color.red }
  else if code = 42 then { g with currentBg := Color.green }
  else if code = 43 then { g with currentBg := Color.yellow }
  else if code = 44 then { g with currentBg := Color.blue }
  else if code = 45 then { g with currentBg := Color.magenta }
  else if code = 46 then { g with currentBg := Color.cyan }
  else if code = 47 then { g with currentBg := Color.gray }
  else if code = 100 then { g with currentBg := Color.darkGray }
  else if code = 101 then { g with currentBg := Color.lightRed }
  else if code = 102 then { g with currentBg := Color.lightGreen }
  else if code = 103 then { g with currentBg := Color.lightYellow }
  else if code = 104 then { g with currentBg := Color.lightBlue }
  else if code = 105 then { g with currentBg := Color.lightMagenta }
  else if code = 106 then { g with currentBg := Color.lightCyan }
  else if code = 107 then { g with currentBg := Color.white }
  else if code = 49 then { g with currentBg := Color.reset }
  else g

/-- `SGR` – `CSI m` (`src/terminal/mod.rs:590-650`): empty parameter list
resets the pen, otherwise each parameter is applied in order. -/
def csiSGR (g : Grid) (params : List Nat) : Grid :=
  if params.isEmpty then { g with currentFg := Color.reset, currentBg := Color.reset }
  else params.foldl sgrApply g

/-- `IL` – `CSI L` (`src/terminal/mod.rs:651-665`): the source's "simple
implementation" only clears rows `cursor_row .. min(cursor_row+n, rows)`;
it does not shift anything. -/
def csiL (g : Grid) (n : Nat) : Grid :=
  let y := g.cursorPos.2
  { g with cells := g.cells.mapIdx (fun i row =>
    if y ≤ i ∧ i < y + n then blankRow row else row) }

/-- `DL` – `CSI M` (`src/terminal/mod.rs:666-691`): shift rows above
`rows - n` up by `n`, clear the rest.  (Rows all have equal length in
every reachable grid, so the column-wise copy is a row replacement.) -/
def csiDL (g : Grid) (n : Nat) : Grid :=
  let y := g.cursorPos.2
  let len := g.cells.length
  { g with cells := g.cells.mapIdx (fun i row =>
    if i < y then row
    else if i + n < len then (g.cells[i + n]?).getD row
    else blankRow row) }

/-- First CSI parameter with default (`params.iter().next()...unwrap_or`). -/
def param1 (params : List Nat) (d : Nat) : Nat := params.head?.getD d

/-- Second CSI parameter with default (`params.iter().nth(1)...unwrap_or`). -/
def param2 (params : List Nat) (d : Nat) : Nat := (params[1]?).getD d

/-- `Perform::csi_dispatch` (`src/terminal/mod.rs:486-696`).  Note that the
`H`/`f` arm stores `(col-1, row-1)` with saturating subtraction but with no
clamp against the grid size. -/
def csiDispatch (g : Grid) (params : List Nat) (c : Char) : Option Grid :=
  if c = 'H' ∨ c = 'f' then
    some { g with cursorPos := (param2 params 1 - 1, param1 params 1 - 1) }
  else if c = 'A' then
    some { g with cursorPos := (g.cursorPos.1, g.cursorPos.2 - param1 params 1) }
  else if c = 'B' then
    some { g with cursorPos := (g.cursorPos.1, min (g.cursorPos.2 + param1 params 1) (g.size.2 - 1)) }
  else if c = 'C' then
    some { g with cursorPos := (min (g.cursorPos.1 + param1 params 1) (g.size.1 - 1), g.cursorPos.2) }
  else if c = 'D' then
    some { g with cursorPos := (g.cursorPos.1 - param1 params 1, g.cursorPos.2) }
  else if c = 'J' then csiJ g (param1 params 0)
  else if c = 'K' then some (csiK g (param1 params 0))
  else if c = 'm' then some (csiSGR g params)
  else if c = 'L' then some (csiL g (param1 params 1))
  else if c = 'M' then some (csiDL g (param1 params 1))
  else some g

/-- `Perform::esc_dispatch` (`src/terminal/mod.rs:698-728`): only `ESC c`
(RIS) acts; it erases the grid and homes the cursor (the pen is kept). -/
def escDispatch (g : Grid) (b : Nat) : Grid :=
  if b = 99 then { g with cells := g.cells.map blankRow, cursorPos := (0, 0) }
  else g

/-- Modelled from the spec: the byte-fed escape-sequence state machine of
§4.1 (`Ground`, `Escape`, `CsiEntry`/`CsiParam`, `OscString`), which the
source obtains from the third-party `vte` crate.  A CSI parameter under
construction is `cur`; completed parameters are `ps`. -/
inductive PState where
  | ground
  | escape
  | csi (ps : List Nat) (cur : Option Nat)
  | osc
  deriving DecidableEq

/-- Finalise the CSI parameter list at the dispatch byte: no parameter
bytes at all gives the empty list, otherwise the pending parameter
(empty ⇒ 0) is appended. -/
def csiParams (ps : List Nat) (cur : Option Nat) : List Nat :=
  match ps, cur with
  | [], none => []
  | ps, cur => ps ++ [cur.getD 0]

/-- Modelled from the spec: one byte of the §4.1 state machine driving the
source's `Perform` actions.  `none` propagates a panic from an action. -/
def advance (st : PState) (g : Grid) (b : Nat) : Option (PState × Grid) :=
  match st with
  | PState.ground =>
    if b = 27 then some (PState.escape, g)
    else if b < 32 ∨ b = 127 then some (PState.ground, execute g b)
    else some (PState.ground, printChar g (Char.ofNat b))
  | PState.escape =>
    if b = 91 then some (PState.csi [] none, g)
    else if b = 93 then some (PState.osc, g)
    else some (PState.ground, escDispatch g b)
  | PState.csi ps cur =>
    if 48 ≤ b ∧ b ≤ 57 then
      some (PState.csi ps (some (min (cur.getD 0 * 10 + (b - 48)) 65535)), g)
    else if b = 59 then some (PState.csi (ps ++ [cur.getD 0]) none, g)
    else if 64 ≤ b ∧ b ≤ 126 then
      (csiDispatch g (csiParams ps cur) (Char.ofNat b)).map (fun h => (PState.ground, h))
    else some (PState.csi ps cur, g)
  | PState.osc =>
    if b = 7 then some (PState.ground, g)
    else if b = 27 then some (PState.escape, g)
    else some (PState.osc, g)

/-- Feed a byte sequence to a fresh parser driving grid `g`
(the `for byte in slice { parser.advance(self, *byte) }` loop of
`TerminalEmulator::update`); `none` is a panic inside an action. -/
def feed (g : Grid) (bs : List Nat) : Option Grid :=
  (bs.foldlM (fun sg b => advance (Prod.fst sg) (Prod.snd sg) b) (PState.ground, g)).map
    (fun sg => Prod.snd sg)

/-- `TerminalEmulator::resize` (`src/terminal/mod.rs:139-186`): identical
size returns immediately; otherwise the buffers are rebuilt, the
overlapping region is copied from the old grid, the rest is blank, and
the cursor is clamped into the new size. -/
def resize (g : Grid) (size : Nat × Nat) : Grid :=
  if g.size = size then g
  else
    { size := size
      cells := (List.range size.2).map (fun y =>
        (List.range size.1).map (fun x =>
          (((g.cells[y]?).bind (fun row => row[x]?)).getD blankCell)))
      cursorPos := (min g.cursorPos.1 (size.1 - 1), min g.cursorPos.2 (size.2 - 1))
      currentFg := g.currentFg
      currentBg := g.currentBg }

/-- Crossterm key codes reaching `convert_key_to_bytes`
(`src/terminal/mod.rs:731-776`).  `backTab` is crossterm's code for
Shift+Tab; `otherKey` stands for every other crossterm code, all of which
fall into the final `_` arm of the Rust match. -/
inductive KeyCode where
  | char (c : Char)
  | enter
  | backspace
  | left
  | right
  | up
  | down
  | home
  | endKey
  | pageUp
  | pageDown
  | tab
  | backTab
  | delete
  | insert
  | f (n : Nat)
  | esc
  | otherKey
  deriving DecidableEq

/-- The three crossterm modifier bits that the source's patterns can
distinguish (`NONE` = all false, `CONTROL` = control only); the remaining
bits never influence the match. -/
structure KeyModifiers where
  shift : Bool
  control : Bool
  alt : Bool
  deriving DecidableEq, Fintype

/-- No modifiers (`KeyModifiers::NONE`). -/
def modNone : KeyModifiers := { shift := false, control := false, alt := false }

/-- Control only (`KeyModifiers::CONTROL`). -/
def modControl : KeyModifiers := { shift := false, control := true, alt := false }

/-- UTF-8 bytes of a character (`c.to_string().into_bytes()`). -/
def utf8Encode (c : Char) : List Nat :=
  let n := c.toNat
  if n < 128 then [n]
  else if n < 2048 then [192 + n / 64, 128 + n % 64]
  else if n < 65536 then [224 + n / 4096, 128 + n / 64 % 64, 128 + n % 64]
  else [240 + n / 262144, 128 + n / 4096 % 64, 128 + n / 64 % 64, 128 + n % 64]

/-- `convert_key_to_bytes` (`src/terminal/mod.rs:731-776`).  The guards on
`Ctrl+char` compare code points exactly as the Rust `c >= 'a' && c <= 'z'`
does. -/
def convertKeyToBytes (code : KeyCode) (m : KeyModifiers) : List Nat :=
  match code, m with
  | KeyCode.char c, { shift := false, control := false, alt := false } => utf8Encode c
  | KeyCode.char c, { shift := false, control := true, alt := false } =>
    if 97 ≤ c.toNat ∧ c.toNat ≤ 122 then [c.toNat - 97 + 1]
    else if 65 ≤ c.toNat ∧ c.toNat ≤ 90 then [c.toNat - 65 + 1]
    else []
  | KeyCode.char _, _ => []
  | KeyCode.enter, _ => [13]
  | KeyCode.backspace, _ => [127]
  | KeyCode.left, _ => [27, 91, 68]
  | KeyCode.right, _ => [27, 91, 67]
  | KeyCode.up, _ => [27, 91, 65]
  | KeyCode.down, _ => [27, 91, 66]
  | KeyCode.home, _ => [27, 91, 72]
  | KeyCode.endKey, _ => [27, 91, 70]
  | KeyCode.pageUp, _ => [27, 91, 53, 126]
  | KeyCode.pageDown, _ => [27, 91, 54, 126]
  | KeyCode.tab, _ => [9]
  | KeyCode.delete, _ => [27, 91, 51, 126]
  | KeyCode.insert, _ => [27, 91, 50, 126]
  | KeyCode.f n, _ =>
    if n = 1 then [27, 79, 80]
    else if n = 2 then [27, 79, 81]
    else if n = 3 then [27, 79, 82]
    else if n = 4 then [27, 79, 83]
    else if n = 5 then [27, 91, 49, 53, 126]
    else if n = 6 then [27, 91, 49, 55, 126]
    else if n = 7 then [27, 91, 49, 56, 126]
    else if n = 8 then [27, 91, 49, 57, 126]
    else if n = 9 then [27, 91, 50, 48, 126]
    else if n = 10 then [27, 91, 50, 49, 126]
    else []
  | KeyCode.esc, _ => [27]
  | KeyCode.backTab, _ => []
  | KeyCode.otherKey, _ => []

/-- One entry of the `WorkspaceManager`'s session list
(`src/workspace/mod.rs:26-33`): the id and title are what the claims
observe; the emulator, paths and file sets are orthogonal to them. -/
structure TerminalSession where
  id : Nat
  title : String
  deriving DecidableEq

/-- The workspace state touched by the claims
(`src/workspace/mod.rs:16-24`): the ordered session list, the active-id
pointer and the configured cap (`max_terminals`, default 10). -/
structure WorkspaceManager where
  terminals : List TerminalSession
  activeTerminal : Option Nat
  maxTerminals : Nat
  deriving DecidableEq

/-- The error of a creation attempt at the cap (the source reports it via
`anyhow::bail!("Maximum number of terminals ... reached")`). -/
inductive WsError where
  | tooManySessions
  deriving DecidableEq

/-- `WorkspaceManager::create_terminal` (`src/workspace/mod.rs:53-105`),
single-threaded and with the PTY spawn and git-worktree collaborators
elided (they do not touch the session list or the active pointer before
the cap check rejects).  The fresh random `Uuid` is passed in as
`freshId`.  Returns the workspace after the call and the result. -/
def createTerminal (w : WorkspaceManager) (freshId : Nat) :
    WorkspaceManager × Except WsError Nat :=
  if w.terminals.length ≥ w.maxTerminals then
    (w, Except.error WsError.tooManySessions)
  else
    let session : TerminalSession :=
      { id := freshId, title := "Terminal " ++ toString (w.terminals.length + 1) }
    let w1 : WorkspaceManager := { w with terminals := w.terminals ++ [session] }
    let w2 := if w1.activeTerminal = none
      then { w1 with activeTerminal := some freshId } else w1
    (w2, Except.ok freshId)

/-- `WorkspaceManager::close_terminal` (`src/workspace/mod.rs:107-132`)
on the non-git path: `retain(|t| t.id != id)` then, if the closed id was
active, the first remaining session (or `None`) becomes active. -/
def closeTerminal (w : WorkspaceManager) (id : Nat) : WorkspaceManager :=
  let terminals := w.terminals.filter (fun t => t.id ≠ id)
  { w with terminals := terminals
           activeTerminal := if w.activeTerminal = some id
             then terminals.head?.map TerminalSession.id
             else w.activeTerminal }

/-- `WorkspaceManager::next_terminal` (`src/workspace/mod.rs:159-175`). -/
def nextTerminal (w : WorkspaceManager) : WorkspaceManager :=
  if w.terminals.isEmpty then w
  else
    match w.activeTerminal with
    | some currentId =>
      match w.terminals.findIdx? (fun t => t.id = currentId) with
      | some idx =>
        { w with activeTerminal :=
            (w.terminals.get? ((idx + 1) % w.terminals.length)).map TerminalSession.id }
      | none => w
    | none => { w with activeTerminal := w.terminals.head?.map TerminalSession.id }

/-- `WorkspaceManager::previous_terminal` (`src/workspace/mod.rs:177-197`). -/
def previousTerminal (w : WorkspaceManager) : WorkspaceManager :=
  if w.terminals.isEmpty then w
  else
    match w.activeTerminal with
    | some currentId =>
      match w.terminals.findIdx? (fun t => t.id = currentId) with
      | some idx =>
        let prevIdx := if idx = 0 then w.terminals.length - 1 else idx - 1
        { w with activeTerminal := (w.terminals.get? prevIdx).map TerminalSession.id }
      | none => w
    | none => { w with activeTerminal := w.terminals.head?.map TerminalSession.id }

/-- A `ratatui` rectangle (`x`, `y`, `width`, `height`), all `u16` in the
source. -/
structure Rect where
  x : Nat
  y : Nat
  width : Nat
  height : Nat
  deriving DecidableEq

/-- `TileLayout` (`src/layout/mod.rs:15-20`). -/
inductive TileLayout where
  | vertical
  | horizontal
  | grid (cols : Nat)
  | spiral
  deriving DecidableEq

/-- `LayoutMode` (`src/layout/mod.rs:7-12`). -/
inductive LayoutMode where
  | tiled (t : TileLayout)
  | floating
  | tabbed
  | stacked
  deriving DecidableEq

/-- Modelled from the spec: `ratatui` `Layout::split` with `n` equal
`Ratio(1, n)` constraints in the vertical direction — `n` equal-height
slices (§4.5), rounding by integer division, covering `r` exactly. -/
def splitVertical (r : Rect) (n : Nat) : List Rect :=
  (List.range n).map (fun i =>
    { x := r.x
      y := r.y + i * r.height / n
      width := r.width
      height := (i + 1) * r.height / n - i * r.height / n })

/-- Modelled from the spec: the same split in the horizontal direction —
`n` equal-width slices. -/
def splitHorizontal (r : Rect) (n : Nat) : List Rect :=
  (List.range n).map (fun i =>
    { x := r.x + i * r.width / n
      y := r.y
      width := (i + 1) * r.width / n - i * r.width / n
      height := r.height })

/-- The row-by-row assignment loop of the `TileLayout::Grid` arm
(`src/layout/mod.rs:116-139`): each row strip takes
`min(remaining, cols)` sessions and splits into that many columns. -/
def gridAssign (cols : Nat) : List Rect → List Nat → List (Nat × Rect)
  | [], _ => []
  | rc :: rest, ts =>
    let k := min ts.length cols
    List.zip (ts.take k) (splitHorizontal rc k) ++ gridAssign cols rest (ts.drop k)

/-- The `TileLayout::Grid` arm (`src/layout/mod.rs:116-139`):
`cols = max (min cols n) 1`, `rows = ⌈n / cols⌉`. -/
def calculateGridLayout (area : Rect) (ts : List Nat) (cols : Nat) : List (Nat × Rect) :=
  let c := max (min cols ts.length) 1
  gridAssign c (splitVertical area ((ts.length + c - 1) / c)) ts

/-- Modelled from the spec: a `Percentage(50)/Percentage(50)` split of `r`
(`true` = `Direction::Horizontal`, side by side). -/
def halve (horiz : Bool) (r : Rect) : Rect × Rect :=
  if horiz then
    ({ r with width := r.width / 2 },
     { r with x := r.x + r.width / 2, width := r.width - r.width / 2 })
  else
    ({ r with height := r.height / 2 },
     { r with y := r.y + r.height / 2, height := r.height - r.height / 2 })

/-- `calculate_spiral_layout` (`src/layout/mod.rs:146-188`): the last
session takes the whole residual; otherwise the residual is halved,
alternating direction, starting horizontally. -/
def spiralAssign (horiz : Bool) (remaining : Rect) : List Nat → List (Nat × Rect)
  | [] => []
  | [t] => [(t, remaining)]
  | t :: u :: ts =>
    ((t, (halve horiz remaining).1)) :: spiralAssign (!horiz) (halve horiz remaining).2 (u :: ts)

/-- `calculate_floating_layout` (`src/layout/mod.rs:190-206`): a cascade
of offsets `(2i) % (width/4)` and `(2i) % (height/4)` with a `40 × 10`
minimum size.  With a non-empty list the Rust `%` panics whenever
`width / 4` or `height / 4` is zero: that panic is `none` here. -/
def calculateFloatingLayout (area : Rect) (ts : List Nat) : Option (List (Nat × Rect)) :=
  match ts with
  | [] => some []
  | _ =>
    if area.width / 4 = 0 ∨ area.height / 4 = 0 then none
    else
      some (ts.enum.map (fun p =>
        let xoff := p.1 * 2 % (area.width / 4)
        let yoff := p.1 * 2 % (area.height / 4)
        (p.2, { x := area.x + xoff
                y := area.y + yoff
                width := max (area.width - xoff * 2) 40
                height := max (area.height - yoff * 2) 10 })))

/-- `calculate_stacked_layout` (`src/layout/mod.rs:215-239`): the last
session gets the viewport below `2·(n-1)` title rows, the others get
zero-height strips at the top. -/
def calculateStackedLayout (area : Rect) (ts : List Nat) : List (Nat × Rect) :=
  let sh := 2 * (ts.length - 1)
  (match ts.getLast? with
   | some t =>
     [(t, { x := area.x, y := area.y + sh, width := area.width, height := area.height - sh })]
   | none => []) ++
  (ts.take (ts.length - 1)).map (fun t =>
    (t, { x := area.x, y := area.y, width := area.width, height := 0 }))

/-- `LayoutEngine::calculate_layout` (`src/layout/mod.rs:66-87`): empty
session list short-circuits to the empty mapping, otherwise dispatch on
the mode.  The mapping is the list of `(id, rect)` pairs in insertion
order; `none` is a panic inside a mode. -/
def calculateLayout (area : Rect) (ts : List Nat) (mode : LayoutMode) :
    Option (List (Nat × Rect)) :=
  if ts.isEmpty then some []
  else
    match mode with
    | LayoutMode.tiled TileLayout.vertical => some (List.zip ts (splitVertical area ts.length))
    | LayoutMode.tiled TileLayout.horizontal => some (List.zip ts (splitHorizontal area ts.length))
    | LayoutMode.tiled (TileLayout.grid cols) => some (calculateGridLayout area ts cols)
    | LayoutMode.tiled TileLayout.spiral => some (spiralAssign true area ts)
    | LayoutMode.floating => calculateFloatingLayout area ts
    | LayoutMode.tabbed => some (ts.map (fun t => (t, area)))
    | LayoutMode.stacked => some (calculateStackedLayout area ts)

/-- A `1 × 2` grid holding `A` over `B`, cursor at the origin — concrete
input for the insert-lines claim. -/
def ilGrid : Grid :=
  { size := (1, 2)
    cells := [[{ ch := 'A', fg := Color.reset, bg := Color.reset }],
              [{ ch := 'B', fg := Color.reset, bg := Color.reset }]]
    cursorPos := (0, 0)
    currentFg := Color.reset
    currentBg := Color.reset }

/-- A `2 × 1` grid holding `AB`, cursor on the `B` — concrete input for
the erase-line claim. -/
def elGrid : Grid :=
  { size := (2, 1)
    cells := [[{ ch := 'A', fg := Color.reset, bg := Color.reset },
               { ch := 'B', fg := Color.reset, bg := Color.reset }]]
    cursorPos := (1, 0)
    currentFg := Color.reset
    currentBg := Color.reset }

/-- A workspace at the default cap: ten sessions, `max_terminals = 10`. -/
def capWorkspace : WorkspaceManager :=
  { terminals := (List.range 10).map (fun i =>
      { id := i, title := "Terminal " ++ toString (i + 1) })
    activeTerminal := some 0
    maxTerminals := 10 }

/-- A two-session workspace whose first session is active. -/
def twoWorkspace : WorkspaceManager :=
  { terminals := [{ id := 1, title := "Terminal 1" }, { id := 2, title := "Terminal 2" }]
    activeTerminal := some 1
    maxTerminals := 10 }

/-- A two-session workspace with no active session. -/
def orphanWorkspace : WorkspaceManager :=
  { terminals := [{ id := 1, title := "Terminal 1" }, { id := 2, title := "Terminal 2" }]
    activeTerminal := none
    maxTerminals := 10 }

/-- The empty workspace. -/
def emptyWorkspace : WorkspaceManager :=
  { terminals := [], activeTerminal := some 5, maxTerminals := 10 }

/-!  Theorems. -/

/-- C1: the claimed cursor-bounds invariant is violated by the code.  On a
fresh `80 × 24` grid (cursor `(0,0)`, inside bounds) the sequence
`ESC [ 100 ; 100 H` leaves the cursor at `(99, 99)`: the `H`/`f` arm of
`csi_dispatch` performs no clamp against the grid size, so
`cursor.col < cols` and `cursor.row < rows` both fail. -/
theorem claim_C1_cup_escapes_bounds :
    (feed (initGrid 80 24) [27, 91, 49, 48, 48, 59, 49, 48, 48, 72]).map Grid.cursorPos
      = some (99, 99)
    ∧ ¬ (99 < 80) ∧ ¬ (99 < 24) :=
  ⟨rfl, by decide, by decide⟩

/-- C2: the parser can panic.  After `ESC [ 100 ; 100 H` puts the cursor at
row 99 of a 24-row grid (a reachable state, first conjunct), `ESC [ 1 J`
evaluates `display_buffer[row].len()` for `row = 24` and the Rust code
indexes out of bounds; the embedding returns `none` for that panic. -/
theorem claim_C2_ed1_panics :
    (feed (initGrid 80 24) [27, 91, 49, 48, 48, 59, 49, 48, 48, 72]).isSome = true
    ∧ feed (initGrid 80 24) [27, 91, 49, 48, 48, 59, 49, 48, 48, 72, 27, 91, 49, 74] = none :=
  ⟨rfl, rfl⟩

/-- C4: `CSI 1 L` on the `1 × 2` grid `A / B` with the cursor on row 0.
The claim requires old row 0 (`A`) to shift down into row 1; the code
merely blanks row 0, leaving row 1 equal to `B` ≠ `A`. -/
theorem claim_C4_il_does_not_shift :
    (feed ilGrid [27, 91, 49, 76]).map (fun g => (cellAt g 0 0, cellAt g 1 0))
      = some (some blankCell, some { ch := 'B', fg := Color.reset, bg := Color.reset })
    ∧ ({ ch := 'B', fg := Color.reset, bg := Color.reset } : Cell)
        ≠ { ch := 'A', fg := Color.reset, bg := Color.reset } :=
  ⟨rfl, by decide⟩

/-- C5 is false as stated: on the `2 × 1` grid `AB` with the cursor at
column 1, the claim requires `CSI 1 K` to erase from the start of the row
to the cursor inclusive, making cell `(0,0)` blank; the code leaves the
grid untouched (`EL` mode 1 falls into `_ => {}`), so cell `(0,0)` is
still `A`. -/
theorem claim_C5_counterexample :
    (feed elGrid [27, 91, 49, 75]).map (fun g => cellAt g 0 0)
      = some (some { ch := 'A', fg := Color.reset, bg := Color.reset })
    ∧ some ({ ch := 'A', fg := Color.reset, bg := Color.reset } : Cell) ≠ some blankCell :=
  ⟨rfl, by decide⟩

/-- C6 is false as stated: the §6.2 table demands `ESC [ 2 3 ~` for F11,
but `convert_key_to_bytes` only handles F1–F10 and returns the empty byte
sequence for F11. -/
theorem claim_C6_counterexample :
    convertKeyToBytes (KeyCode.f 11) modNone = []
    ∧ ¬ (convertKeyToBytes (KeyCode.f 11) modNone = [27, 91, 50, 51, 126]) := by
  constructor
  · rfl
  · decide

/-- C6, amended to the table the code implements: Tab encodes to `0x09`
under every modifier combination while Shift+Tab (crossterm `BackTab`)
encodes to empty, not `ESC [ Z`; F1–F4 encode to `ESC O P/Q/R/S` and
F5–F10 to `ESC [ n ~` with `n ∈ {15,17,18,19,20,21}`, but F11 and F12
encode to empty; Ctrl+space encodes to empty, not `0x00`; Enter,
Backspace, the arrows, Home/End, PageUp/PageDown, Insert/Delete and Esc
encode as listed regardless of modifiers; a plain printable character
encodes to its UTF-8 bytes, and both Ctrl+`a`..`z` and Ctrl+`A`..`Z`
encode to `0x01`..`0x1A`; every other combination — a character key under
any modifier combination other than exactly-none and exactly-control,
Ctrl plus a non-letter character, and every unlisted key code — encodes
to the empty byte sequence. -/
theorem claim_C6_amended :
    (∀ m : KeyModifiers,
      convertKeyToBytes KeyCode.tab m = [9]
      ∧ convertKeyToBytes KeyCode.backTab m = []
      ∧ convertKeyToBytes KeyCode.enter m = [13]
      ∧ convertKeyToBytes KeyCode.backspace m = [127]
      ∧ convertKeyToBytes KeyCode.left m = [27, 91, 68]
      ∧ convertKeyToBytes KeyCode.right m = [27, 91, 67]
      ∧ convertKeyToBytes KeyCode.up m = [27, 91, 65]
      ∧ convertKeyToBytes KeyCode.down m = [27, 91, 66]
      ∧ convertKeyToBytes KeyCode.home m = [27, 91, 72]
      ∧ convertKeyToBytes KeyCode.endKey m = [27, 91, 70]
      ∧ convertKeyToBytes KeyCode.pageUp m = [27, 91, 53, 126]
      ∧ convertKeyToBytes KeyCode.pageDown m = [27, 91, 54, 126]
      ∧ convertKeyToBytes KeyCode.insert m = [27, 91, 50, 126]
      ∧ convertKeyToBytes KeyCode.delete m = [27, 91, 51, 126]
      ∧ convertKeyToBytes KeyCode.esc m = [27]
      ∧ convertKeyToBytes (KeyCode.f 1) m = [27, 79, 80]
      ∧ convertKeyToBytes (KeyCode.f 2) m = [27, 79, 81]
      ∧ convertKeyToBytes (KeyCode.f 3) m = [27, 79, 82]
      ∧ convertKeyToBytes (KeyCode.f 4) m = [27, 79, 83]
      ∧ convertKeyToBytes (KeyCode.f 5) m = [27, 91, 49, 53, 126]
      ∧ convertKeyToBytes (KeyCode.f 6) m = [27, 91, 49, 55, 126]
      ∧ convertKeyToBytes (KeyCode.f 7) m = [27, 91, 49, 56, 126]
      ∧ convertKeyToBytes (KeyCode.f 8) m = [27, 91, 49, 57, 126]
      ∧ convertKeyToBytes (KeyCode.f 9) m = [27, 91, 50, 48, 126]
      ∧ convertKeyToBytes (KeyCode.f 10) m = [27, 91, 50, 49, 126]
      ∧ convertKeyToBytes (KeyCode.f 11) m = []
      ∧ convertKeyToBytes (KeyCode.f 12) m = []
      ∧ convertKeyToBytes KeyCode.otherKey m = [])
    ∧ convertKeyToBytes (KeyCode.char ' ') modControl = []
    ∧ (∀ c : Char, convertKeyToBytes (KeyCode.char c) modNone = utf8Encode c)
    ∧ (∀ c : Char, 97 ≤ c.toNat → c.toNat ≤ 122 →
        convertKeyToBytes (KeyCode.char c) modControl = [c.toNat - 96])
    ∧ (∀ c : Char, 65 ≤ c.toNat → c.toNat ≤ 90 →
        convertKeyToBytes (KeyCode.char c) modControl = [c.toNat - 64])
    ∧ (∀ (c : Char) (m : KeyModifiers), m ≠ modNone → m ≠ modControl →
        convertKeyToBytes (KeyCode.char c) m = [])
    ∧ (∀ c : Char, ¬ (97 ≤ c.toNat ∧ c.toNat ≤ 122) → ¬ (65 ≤ c.toNat ∧ c.toNat ≤ 90) →
        convertKeyToBytes (KeyCode.char c) modControl = []) := by
  refine ⟨by decide, rfl, fun c => rfl, fun c h1 h2 => ?_, fun c h1 h2 => ?_,
    fun c m hm1 hm2 => ?_, fun c h1 h2 => ?_⟩
  · show (if 97 ≤ c.toNat ∧ c.toNat ≤ 122 then [c.toNat - 97 + 1]
      else if 65 ≤ c.toNat ∧ c.toNat ≤ 90 then [c.toNat - 65 + 1] else []) = [c.toNat - 96]
    rw [if_pos ⟨h1, h2⟩]
    congr 1
    omega
  · show (if 97 ≤ c.toNat ∧ c.toNat ≤ 122 then [c.toNat - 97 + 1]
      else if 65 ≤ c.toNat ∧ c.toNat ≤ 90 then [c.toNat - 65 + 1] else []) = [c.toNat - 64]
    rw [if_neg (by omega), if_pos ⟨h1, h2⟩]
    congr 1
    omega
  · rcases m with ⟨s, ctl, a⟩
    cases s <;> cases ctl <;> cases a <;>
      first
      | rfl
      | exact absurd rfl hm1
      | exact absurd rfl hm2
  · show (if 97 ≤ c.toNat ∧ c.toNat ≤ 122 then [c.toNat - 97 + 1]
      else if 65 ≤ c.toNat ∧ c.toNat ≤ 90 then [c.toNat - 65 + 1] else []) = []
    rw [if_neg h1, if_neg h2]

/-- C6 amended, witnessed at `Ctrl+b`, `Ctrl+B`, `Shift+A` and `Ctrl+5`. -/
theorem claim_C6_amended_witness :
    (97 ≤ Char.toNat 'b' ∧ Char.toNat 'b' ≤ 122
      ∧ convertKeyToBytes (KeyCode.char 'b') modControl = [Char.toNat 'b' - 96])
    ∧ (65 ≤ Char.toNat 'B' ∧ Char.toNat 'B' ≤ 90
      ∧ convertKeyToBytes (KeyCode.char 'B') modControl = [Char.toNat 'B' - 64])
    ∧ convertKeyToBytes (KeyCode.char 'A')
        { shift := true, control := false, alt := false } = []
    ∧ (¬ (97 ≤ Char.toNat '5' ∧ Char.toNat '5' ≤ 122)
      ∧ convertKeyToBytes (KeyCode.char '5') modControl = []) :=
  ⟨⟨by decide, by decide, claim_C6_amended.2.2.2.1 'b' (by decide) (by decide)⟩,
   ⟨by decide, by decide, claim_C6_amended.2.2.2.2.1 'B' (by decide) (by decide)⟩,
   claim_C6_amended.2.2.2.2.2.1 'A'
     { shift := true, control := false, alt := false } (by decide) (by decide),
   ⟨by decide, claim_C6_amended.2.2.2.2.2.2 '5' (by decide) (by decide)⟩⟩

/-- C7: a creation attempt when the session count equals the configured
maximum returns `TooManySessions` and returns the workspace unchanged —
same session list, same active pointer. -/
theorem claim_C7_create_at_cap (w : WorkspaceManager) (freshId : Nat)
    (h : w.terminals.length = w.maxTerminals) :
    createTerminal w freshId = (w, Except.error WsError.tooManySessions)
    ∧ (createTerminal w freshId).1.terminals = w.terminals
    ∧ (createTerminal w freshId).1.activeTerminal = w.activeTerminal := by
  have hge : w.terminals.length ≥ w.maxTerminals := Nat.le_of_eq h.symm
  refine ⟨?_, ?_, ?_⟩ <;> simp [createTerminal, hge]

/-- C7, witnessed on a ten-session workspace with the default cap of 10. -/
theorem claim_C7_create_at_cap_witness :
    capWorkspace.terminals.length = capWorkspace.maxTerminals
    ∧ createTerminal capWorkspace 99 = (capWorkspace, Except.error WsError.tooManySessions) :=
  ⟨by decide, (claim_C7_create_at_cap capWorkspace 99 (by decide)).1⟩

/-- C8: closing the active session removes exactly its entry from the
session list (the remainder keeps creation order) and points `active` at
the first remaining session; when nothing remains the pointer becomes
`None`. -/
theorem claim_C8_close_active (w : WorkspaceManager) (id : Nat)
    (h : w.activeTerminal = some id) :
    (closeTerminal w id).terminals = w.terminals.filter (fun t => t.id ≠ id)
    ∧ (∀ t ∈ (closeTerminal w id).terminals, t.id ≠ id)
    ∧ (closeTerminal w id).activeTerminal
        = ((closeTerminal w id).terminals.head?).map TerminalSession.id
    ∧ ((closeTerminal w id).terminals = [] → (closeTerminal w id).activeTerminal = none) := by
  refine ⟨rfl, ?_, ?_, ?_⟩
  · intro t ht
    have := (List.mem_filter.mp ht).2
    simpa using this
  · simp [closeTerminal, h]
  · intro hempty
    simp only [closeTerminal, h, if_pos rfl] at hempty ⊢
    rw [hempty]
    rfl

/-- C8, witnessed on the two-session workspace: closing active session 1
leaves session 2 active; closing the last session leaves `None`. -/
theorem claim_C8_close_active_witness :
    twoWorkspace.activeTerminal = some 1
    ∧ (closeTerminal twoWorkspace 1).activeTerminal
        = ((closeTerminal twoWorkspace 1).terminals.head?).map TerminalSession.id :=
  ⟨rfl, (claim_C8_close_active twoWorkspace 1 rfl).2.2.1⟩

/-- C10: with no active session, `next()` and `previous()` both activate
the first session of a non-empty list (leaving the list itself alone);
with an empty list both are the identity. -/
theorem claim_C10_next_prev (w : WorkspaceManager) :
    (w.terminals = [] → nextTerminal w = w ∧ previousTerminal w = w)
    ∧ (w.activeTerminal = none → w.terminals ≠ [] →
        (nextTerminal w).activeTerminal = w.terminals.head?.map TerminalSession.id
        ∧ (previousTerminal w).activeTerminal = w.terminals.head?.map TerminalSession.id
        ∧ (nextTerminal w).terminals = w.terminals
        ∧ (previousTerminal w).terminals = w.terminals) := by
  constructor
  · intro hnil
    constructor <;> simp [nextTerminal, previousTerminal, hnil]
  · intro ha hne
    have hempty : w.terminals.isEmpty = false := by
      cases hl : w.terminals with
      | nil => exact absurd hl hne
      | cons a t => rfl
    refine ⟨?_, ?_, ?_, ?_⟩ <;> simp [nextTerminal, previousTerminal, ha, hempty]

/-- C10, witnessed on the empty workspace and on a two-session workspace
with no active session. -/
theorem claim_C10_next_prev_witness :
    (nextTerminal emptyWorkspace = emptyWorkspace
      ∧ previousTerminal emptyWorkspace = emptyWorkspace)
    ∧ ((nextTerminal orphanWorkspace).activeTerminal
        = orphanWorkspace.terminals.head?.map TerminalSession.id
      ∧ (previousTerminal orphanWorkspace).activeTerminal
        = orphanWorkspace.terminals.head?.map TerminalSession.id) :=
  ⟨(claim_C10_next_prev emptyWorkspace).1 rfl,
   ⟨((claim_C10_next_prev orphanWorkspace).2 rfl (by decide)).1,
    ((claim_C10_next_prev orphanWorkspace).2 rfl (by decide)).2.1⟩⟩

/-- Auxiliary: pointwise description of `setFrom`. -/
theorem getElem?_setFrom (c : Cell) : ∀ (l : List Cell) (n i : Nat),
    (setFrom n c l)[i]? = (l[i]?).map (fun a => if n ≤ i then c else a) := by
  intro l
  induction l with
  | nil => intro n i; simp [setFrom]
  | cons a t ih =>
    intro n i
    cases n with
    | zero =>
      cases i with
      | zero => simp [setFrom]
      | succ j => simp [setFrom, ih]
    | succ m =>
      cases i with
      | zero => simp [setFrom]
      | succ j => simp [setFrom, ih, Nat.succ_le_succ_iff]

/-- Auxiliary: pointwise description of `blankRow`. -/
theorem getElem?_blankRow (row : List Cell) (i : Nat) :
    (blankRow row)[i]? = (row[i]?).map (fun _ => blankCell) := by
  simp only [blankRow, List.getElem?_map]

/-- Auxiliary: `csiK` with its `let`s unfolded. -/
theorem csiK_eq (g : Grid) (mode : Nat) :
    csiK g mode = match g.cells[g.cursorPos.2]? with
      | none => g
      | some row =>
        if mode = 0 then
          { g with cells := g.cells.set g.cursorPos.2 (setFrom g.cursorPos.1 blankCell row) }
        else if mode = 2 then { g with cells := g.cells.set g.cursorPos.2 (blankRow row) }
        else g := rfl

/-- C5, amended: `EL` supports only modes 0 and 2, scoped to the cursor's
row — mode 0 erases from the cursor to the end of the row and mode 2
erases the entire row, erased cells becoming `(space, Default, Default)`,
while mode 1 is a no-op on the whole grid; all other cells are
untouched. -/
theorem claim_C5_amended (g : Grid) (y x : Nat) :
    csiK g 1 = g
    ∧ cellAt (csiK g 0) y x
        = (if y = g.cursorPos.2 ∧ g.cursorPos.1 ≤ x
            then (cellAt g y x).map (fun _ => blankCell) else cellAt g y x)
    ∧ cellAt (csiK g 2) y x
        = (if y = g.cursorPos.2 then (cellAt g y x).map (fun _ => blankCell) else cellAt g y x) := by
  refine ⟨?_, ?_, ?_⟩
  · rw [csiK_eq]
    cases g.cells[g.cursorPos.2]? <;> simp
  · cases h : g.cells[g.cursorPos.2]? with
    | none =>
      have hK : csiK g 0 = g := by rw [csiK_eq, h]
      rw [hK]
      split_ifs with hc
      · simp [cellAt, hc.1, h]
      · rfl
    | some row =>
      have hK : csiK g 0
          = { g with cells := g.cells.set g.cursorPos.2 (setFrom g.cursorPos.1 blankCell row) } := by
        rw [csiK_eq, h]; rfl
      rw [hK]
      by_cases hy : y = g.cursorPos.2
      · subst hy
        simp only [cellAt, List.getElem?_set_self', h, Option.map_some, Option.bind_some]
        by_cases hx : g.cursorPos.1 ≤ x
        · simp [hx, getElem?_setFrom]
        · simp [hx, getElem?_setFrom]
      · simp only [cellAt]
        rw [List.getElem?_set_ne (by omega)]
        simp [hy]
  · cases h : g.cells[g.cursorPos.2]? with
    | none =>
      have hK : csiK g 2 = g := by rw [csiK_eq, h]
      rw [hK]
      split_ifs with hc
      · simp [cellAt, hc, h]
      · rfl
    | some row =>
      have hK : csiK g 2 = { g with cells := g.cells.set g.cursorPos.2 (blankRow row) } := by
        rw [csiK_eq, h]; rfl
      rw [hK]
      by_cases hy : y = g.cursorPos.2
      · subst hy
        simp only [cellAt, List.getElem?_set_self', h, Option.map_some, Option.bind_some]
        simp [getElem?_blankRow]
      · simp only [cellAt]
        rw [List.getElem?_set_ne (by omega)]
        simp [hy]

/-- C9: resizing a grid to its current size is the identity — every cell,
both colours, and the cursor are untouched (`resize` returns before doing
anything when the size is unchanged), and the operation cannot fail. -/
theorem claim_C9_resize_identity (g : Grid) : resize g g.size = g := by
  simp [resize]

/-- Auxiliary: every slice of a vertical split keeps the width and fits
inside the height. -/
theorem mem_splitVertical {r : Rect} {n : Nat} {c : Rect} (h : c ∈ splitVertical r n) :
    c.width = r.width ∧ c.height ≤ r.height := by
  simp only [splitVertical, List.mem_map, List.mem_range] at h
  obtain ⟨i, hi, rfl⟩ := h
  refine ⟨rfl, ?_⟩
  show (i + 1) * r.height / n - i * r.height / n ≤ r.height
  have hn : 0 < n := Nat.pos_of_ne_zero (by omega)
  have h1 : (i + 1) * r.height ≤ n * r.height :=
    Nat.mul_le_mul_right r.height (Nat.succ_le_of_lt hi)
  have h2 : (i + 1) * r.height / n ≤ n * r.height / n := Nat.div_le_div_right h1
  have h3 : n * r.height / n = r.height := Nat.mul_div_cancel_left r.height hn
  have h4 : (i + 1) * r.height / n - i * r.height / n ≤ (i + 1) * r.height / n :=
    Nat.sub_le _ _
  omega

/-- Auxiliary: every slice of a horizontal split keeps the height and
fits inside the width. -/
theorem mem_splitHorizontal {r : Rect} {n : Nat} {c : Rect} (h : c ∈ splitHorizontal r n) :
    c.height = r.height ∧ c.width ≤ r.width := by
  simp only [splitHorizontal, List.mem_map, List.mem_range] at h
  obtain ⟨i, hi, rfl⟩ := h
  refine ⟨rfl, ?_⟩
  show (i + 1) * r.width / n - i * r.width / n ≤ r.width
  have hn : 0 < n := Nat.pos_of_ne_zero (by omega)
  have h1 : (i + 1) * r.width ≤ n * r.width :=
    Nat.mul_le_mul_right r.width (Nat.succ_le_of_lt hi)
  have h2 : (i + 1) * r.width / n ≤ n * r.width / n := Nat.div_le_div_right h1
  have h3 : n * r.width / n = r.width := Nat.mul_div_cancel_left r.width hn
  have h4 : (i + 1) * r.width / n - i * r.width / n ≤ (i + 1) * r.width / n :=
    Nat.sub_le _ _
  omega

/-- Auxiliary: both halves fit inside the halved rectangle. -/
theorem halve_le (horiz : Bool) (r : Rect) :
    ((halve horiz r).1.width ≤ r.width ∧ (halve horiz r).1.height ≤ r.height)
    ∧ ((halve horiz r).2.width ≤ r.width ∧ (halve horiz r).2.height ≤ r.height) := by
  cases horiz <;> simp [halve] <;> omega

/-- Auxiliary: every spiral rectangle fits inside the residual it was cut
from. -/
theorem spiralAssign_bounds :
    ∀ (ts : List Nat) (horiz : Bool) (rem : Rect) (p : Nat × Rect),
      p ∈ spiralAssign horiz rem ts →
      p.2.width ≤ rem.width ∧ p.2.height ≤ rem.height := by
  intro ts
  induction ts with
  | nil => intro horiz rem p hp; simp [spiralAssign] at hp
  | cons t ts ih =>
    intro horiz rem p hp
    cases ts with
    | nil =>
      simp [spiralAssign] at hp
      subst hp
      exact ⟨Nat.le_refl _, Nat.le_refl _⟩
    | cons u us =>
      simp only [spiralAssign, List.mem_cons] at hp
      rcases hp with rfl | hp
      · exact ⟨(halve_le horiz rem).1.1, (halve_le horiz rem).1.2⟩
      · have hb := ih (!horiz) (halve horiz rem).2 p hp
        exact ⟨Nat.le_trans hb.1 (halve_le horiz rem).2.1,
               Nat.le_trans hb.2 (halve_le horiz rem).2.2⟩

/-- Auxiliary: every grid slot fits inside the viewport when every row
strip does. -/
theorem gridAssign_bounds {area : Rect} (cols : Nat) :
    ∀ (rcs : List Rect) (ts : List Nat) (p : Nat × Rect),
      (∀ rc ∈ rcs, rc.width ≤ area.width ∧ rc.height ≤ area.height) →
      p ∈ gridAssign cols rcs ts →
      p.2.width ≤ area.width ∧ p.2.height ≤ area.height := by
  intro rcs
  induction rcs with
  | nil => intro ts p _ hp; simp [gridAssign] at hp
  | cons rc rest ih =>
    intro ts p hrc hp
    simp only [gridAssign, List.mem_append] at hp
    rcases hp with hp | hp
    · rcases p with ⟨a, b⟩
      obtain ⟨h1, h2⟩ := List.of_mem_zip hp
      obtain ⟨hh, hw⟩ := mem_splitHorizontal h2
      obtain ⟨hw', hh'⟩ := hrc rc (List.mem_cons_self _ _)
      refine ⟨Nat.le_trans hw hw', ?_⟩
      show b.height ≤ area.height
      omega
    · exact ih _ p (fun rc' h => hrc rc' (List.mem_cons_of_mem _ h)) hp

/-- Auxiliary: in every non-Floating mode, each produced rectangle fits
inside the viewport. -/
theorem calculateLayout_bounds {area : Rect} {ts : List Nat} {mode : LayoutMode}
    (hmode : mode ≠ LayoutMode.floating) {p : Nat × Rect}
    (hp : p ∈ (calculateLayout area ts mode).getD []) :
    p.2.width ≤ area.width ∧ p.2.height ≤ area.height := by
  by_cases hts : ts.isEmpty
  · simp [calculateLayout, hts] at hp
  · cases mode with
    | floating => exact absurd rfl hmode
    | tabbed =>
      simp only [calculateLayout, hts, Bool.false_eq_true, if_false, Option.getD_some,
        List.mem_map] at hp
      obtain ⟨t, ht, rfl⟩ := hp
      exact ⟨Nat.le_refl _, Nat.le_refl _⟩
    | stacked =>
      simp only [calculateLayout, hts, Bool.false_eq_true, if_false, Option.getD_some,
        calculateStackedLayout, List.mem_append, List.mem_map] at hp
      rcases hp with hp | hp
      · cases hl : ts.getLast? with
        | none => rw [hl] at hp; simp at hp
        | some t =>
          rw [hl] at hp
          simp at hp
          subst hp
          exact ⟨Nat.le_refl _, Nat.sub_le _ _⟩
      · obtain ⟨t, ht, rfl⟩ := hp
        exact ⟨Nat.le_refl _, Nat.zero_le _⟩
    | tiled tl =>
      cases tl with
      | vertical =>
        simp only [calculateLayout, hts, Bool.false_eq_true, if_false, Option.getD_some] at hp
        rcases p with ⟨a, b⟩
        obtain ⟨h1, h2⟩ := List.of_mem_zip hp
        obtain ⟨hw, hh⟩ := mem_splitVertical h2
        exact ⟨Nat.le_of_eq hw, hh⟩
      | horizontal =>
        simp only [calculateLayout, hts, Bool.false_eq_true, if_false, Option.getD_some] at hp
        rcases p with ⟨a, b⟩
        obtain ⟨h1, h2⟩ := List.of_mem_zip hp
        obtain ⟨hh, hw⟩ := mem_splitHorizontal h2
        exact ⟨hw, Nat.le_of_eq hh⟩
      | grid cols =>
        simp only [calculateLayout, hts, Bool.false_eq_true, if_false, Option.getD_some,
          calculateGridLayout] at hp
        refine gridAssign_bounds _ _ ts p (fun rc h => ?_) hp
        obtain ⟨hw, hh⟩ := mem_splitVertical h
        exact ⟨Nat.le_of_eq hw, hh⟩
      | spiral =>
        simp only [calculateLayout, hts, Bool.false_eq_true, if_false, Option.getD_some] at hp
        exact spiralAssign_bounds ts true area p hp

/-- C3 is false as stated: on a zero-area viewport with one session id,
Floating mode divides by `width / 4 = 0` — the Rust `%` panics instead of
returning a mapping (and, failing aside, Floating's `40 × 10` minimum
size would contradict the all-zero-area clause anyway). -/
theorem claim_C3_counterexample :
    calculateLayout { x := 0, y := 0, width := 0, height := 0 } [0] LayoutMode.floating
      = none := rfl

/-- C3, amended: every non-Floating mode returns a mapping without
failing; the empty id list returns the empty mapping in every mode; in
non-Floating modes a zero-area viewport yields only zero-area rectangles;
Floating mode with a non-empty id list panics whenever the viewport is
narrower than 4 columns or shorter than 4 rows (so on every zero-area
viewport). -/
theorem claim_C3_amended (area : Rect) (ts : List Nat) (mode : LayoutMode) :
    (mode ≠ LayoutMode.floating → (calculateLayout area ts mode).isSome = true)
    ∧ (ts = [] → calculateLayout area ts mode = some [])
    ∧ (mode ≠ LayoutMode.floating → area.width * area.height = 0 →
        ∀ p ∈ (calculateLayout area ts mode).getD [], p.2.width * p.2.height = 0)
    ∧ (mode = LayoutMode.floating → ts ≠ [] → area.width < 4 ∨ area.height < 4 →
        calculateLayout area ts mode = none) := by
  refine ⟨?_, ?_, ?_, ?_⟩
  · intro h
    by_cases hts : ts.isEmpty
    · simp [calculateLayout, hts]
    · cases mode with
      | floating => exact absurd rfl h
      | tiled tl => cases tl <;> simp [calculateLayout, hts]
      | tabbed => simp [calculateLayout, hts]
      | stacked => simp [calculateLayout, hts]
  · intro h
    subst h
    simp [calculateLayout]
  · intro h hz p hp
    have hb := calculateLayout_bounds h hp
    rcases Nat.mul_eq_zero.mp hz with h0 | h0
    · have hw : p.2.width = 0 := by omega
      simp [hw]
    · have hh : p.2.height = 0 := by omega
      simp [hh]
  · intro hm hts hlt
    subst hm
    have hempty : ts.isEmpty = false := by
      cases ts with
      | nil => exact absurd rfl hts
      | cons a t => rfl
    cases ts with
    | nil => exact absurd rfl hts
    | cons a t =>
      simp only [calculateLayout, hempty, Bool.false_eq_true, if_false]
      simp only [calculateFloatingLayout]
      have hd : area.width / 4 = 0 ∨ area.height / 4 = 0 := by
        rcases hlt with h | h
        · exact Or.inl (Nat.div_eq_of_lt h)
        · exact Or.inr (Nat.div_eq_of_lt h)
      rw [if_pos hd]

/-- C3 amended, witnessed on a zero-width viewport in vertical tiling and
on a `2 × 5` viewport in Floating mode. -/
theorem claim_C3_amended_witness :
    ((LayoutMode.tiled TileLayout.vertical ≠ LayoutMode.floating)
      ∧ (calculateLayout { x := 0, y := 0, width := 0, height := 3 } [1, 2]
          (LayoutMode.tiled TileLayout.vertical)).isSome = true)
    ∧ (∀ p ∈ (calculateLayout { x := 0, y := 0, width := 0, height := 3 } [1, 2]
          (LayoutMode.tiled TileLayout.vertical)).getD [], p.2.width * p.2.height = 0)
    ∧ calculateLayout { x := 0, y := 0, width := 2, height := 5 } [7] LayoutMode.floating
        = none :=
  ⟨⟨by decide, (claim_C3_amended _ _ _).1 (by decide)⟩,
   (claim_C3_amended _ _ _).2.2.1 (by decide) (by decide),
   (claim_C3_amended _ _ _).2.2.2 rfl (by decide) (Or.inl (by decide))⟩

end RGB
